import Mathlib

/--
Verification development for the hive conformance-testing harness.
The first part embeds the Artifact Mutation Engine of
simulators/ethereum/engine/helper.go (customizeTransaction, calcTxsHash,
customizePayload); the second part embeds the blob-gossip scenario registry of
simulators/eth2/dencun/suites/p2p/gossip/blobs (P2PBlobsGossipTestSpec and the
registered test list).
Machine integers are modelled as Nat (uint64, bytes) and Int (Go big.Int and
int64 conversions, with the two's-complement wrap made explicit); fallible Go
code returns Except.  Cryptographic primitives from go-ethereum (keccak header
hashing, RLP transaction decoding, deterministic ECDSA signing) are not part of
this repository; they are embedded as concrete executable stand-ins whose only
properties the claims rely on are determinism and error propagation.
-/
def specScope : String := "hive artifact mutation engine and blob gossip scenario registry"

deriving instance DecidableEq for Except

/-- Byte strings (Go []byte): lists of byte values. -/
abbrev Bytes := List Nat

/-- A 32-byte hash (go-ethereum common.Hash), modelled as an opaque numeral. -/
abbrev Hash := Nat

/-- A 20-byte account address (go-ethereum common.Address). -/
abbrev Address := Nat

/-- An ECDSA private key (crypto/ecdsa PrivateKey), opaque to the engine. -/
abbrev PrivKey := Nat

/-- Go conversion uint64 -> int64 followed by big.NewInt: two's-complement wrap
of the low 64 bits into a signed value, as performed by
big.NewInt(int64(n)) in customizePayload. -/
def toInt64 (n : Nat) : Int :=
  if n % 2 ^ 64 < 2 ^ 63 then ((n % 2 ^ 64 : Nat) : Int)
  else ((n % 2 ^ 64 : Nat) : Int) - 2 ^ 64

/-- Go big.Int.Uint64: the low 64 bits of the absolute value
(math/big returns low64(x.abs)). -/
def bigUint64 (x : Int) : Nat := x.natAbs % 2 ^ 64

/-- Deterministic mixing step used by the executable stand-ins for the
go-ethereum hash functions. -/
def mix (a b : Nat) : Nat := a * 1000003 + b + 1

/-- Fold a list of numerals into one numeral (stand-in accumulator). -/
def encList (l : List Nat) : Nat := l.foldl mix 7

/-- Encode an Int injectively as a Nat (sign interleaving). -/
def encInt (x : Int) : Nat := if 0 ≤ x then 2 * x.toNat else 2 * x.natAbs - 1

/-- Encode an optional numeral (nil pointer vs value). -/
def encOpt : Option Nat → Nat
  | none => 0
  | some n => n + 1

/-- SignatureValues from helper.go: the (V, R, S) triple of an ECDSA
transaction signature, each a Go big.Int. -/
structure SignatureValues where
  V : Int
  R : Int
  S : Int
deriving DecidableEq

/-- SignatureValuesFromRaw from helper.go. -/
def SignatureValuesFromRaw (v r s : Int) : SignatureValues :=
  { V := v, R := r, S := s }

/-- CustomTransactionData from helper.go: sparse overrides for a transaction.
A nil Go pointer is Option.none. -/
structure CustomTransactionData where
  Nonce : Option Nat := none
  GasPrice : Option Int := none
  Gas : Option Nat := none
  To : Option Address := none
  Value : Option Int := none
  Data : Option Bytes := none
  Signature : Option SignatureValues := none
deriving DecidableEq

/-- go-ethereum types.LegacyTx: the legacy transaction body used as the
construction base by customizeTransaction. -/
structure LegacyTx where
  nonce : Nat := 0
  gasPrice : Int := 0
  gas : Nat := 0
  toAddr : Option Address := none
  value : Int := 0
  data : Bytes := []
  v : Int := 0
  r : Int := 0
  s : Int := 0
deriving DecidableEq

/-- go-ethereum types.Transaction as far as the claims observe it: the inner
tx-data variant tag (0 = LegacyTx, 1 = AccessListTx, 2 = DynamicFeeTx), the
signed fields, the access list carried by non-legacy variants, and the raw
signature triple. -/
structure Transaction where
  txType : Nat
  nonce : Nat
  gasPrice : Int
  gas : Nat
  toAddr : Option Address
  value : Int
  data : Bytes
  accessList : List (Address × List Hash)
  sigV : Int
  sigR : Int
  sigS : Int
deriving DecidableEq

/-- go-ethereum types.NewTx applied to a LegacyTx body: a legacy transaction
carries type 0 and no access list. -/
def NewTx (tx : LegacyTx) : Transaction :=
  { txType := 0, nonce := tx.nonce, gasPrice := tx.gasPrice, gas := tx.gas,
    toAddr := tx.toAddr, value := tx.value, data := tx.data, accessList := [],
    sigV := tx.v, sigR := tx.r, sigS := tx.s }

/-- The EIP-155 chain id used by types.NewEIP155Signer(chainID) in
customizeTransaction.  The Go variable chainID is set elsewhere in the engine
simulator (not in the sampled sources); no claim depends on its value. -/
def chainID : Int := 7

/-- Stand-in for the EIP-155 signing hash of a legacy transaction body: a
deterministic function of the signed fields (nonce, gasPrice, gas, to, value,
data) and the chain id, as hashed by types.NewEIP155Signer(chainID). -/
def sigHash (tx : LegacyTx) (chain : Int) : Nat :=
  encList ([tx.nonce, encInt tx.gasPrice, tx.gas, encOpt tx.toAddr,
    encInt tx.value] ++ tx.data ++ [encInt chain])

/-- Stand-in for deterministic ECDSA signing (go-ethereum crypto.Sign uses the
RFC 6979 deterministic nonce; the spec's Signer collaborator is declared
deterministic given identical inputs).  Only determinism and the dependence on
exactly (message hash, private key) matter to the claims. -/
def ecdsaSign (h : Nat) (pk : PrivKey) : SignatureValues :=
  { V := Int.ofNat (mix h pk % 2 + 27),
    R := Int.ofNat (mix (mix h pk) 1),
    S := Int.ofNat (mix (mix h pk) 2) }

/-- go-ethereum types.SignTx on a legacy body with an EIP-155 signer: sign the
body's signing hash with the private key and install the (V, R, S) triple. -/
def SignTx (tx : LegacyTx) (chain : Int) (pk : PrivKey) : Transaction :=
  let sv := ecdsaSign (sigHash tx chain) pk
  NewTx { tx with v := sv.V, r := sv.R, s := sv.S }

/-- The modified transaction base assembled by customizeTransaction: each
signed field is the override when present, else the base transaction's field
(helper.go lines 103-134). -/
def overriddenLegacyBase (baseTransaction : Transaction)
    (customData : CustomTransactionData) : LegacyTx :=
  { nonce := customData.Nonce.getD baseTransaction.nonce
    gasPrice := customData.GasPrice.getD baseTransaction.gasPrice
    gas := customData.Gas.getD baseTransaction.gas
    toAddr := match customData.To with
      | some a => some a
      | none => baseTransaction.toAddr
    value := customData.Value.getD baseTransaction.value
    data := customData.Data.getD baseTransaction.data
    v := 0, r := 0, s := 0 }

/-- customizeTransaction from helper.go: build a LegacyTx base mixing the base
transaction and the overrides; if a Signature override is present install it
raw, otherwise re-sign the assembled body with the supplied private key under
the EIP-155 signer.  The Go function returns (tx, error) where the only error
source is SignTx; the deterministic signer model never fails, so the embedding
returns the transaction directly. -/
def customizeTransaction (baseTransaction : Transaction) (pk : PrivKey)
    (customData : CustomTransactionData) : Transaction :=
  let modifiedTxBase := overriddenLegacyBase baseTransaction customData
  match customData.Signature with
  | some sv => NewTx { modifiedTxBase with v := sv.V, r := sv.R, s := sv.S }
  | none => SignTx modifiedTxBase chainID pk

/-- CustomPayloadData from helper.go: sparse overrides for an execution
payload.  BlockHash is a declared override field; customizePayload never reads
it. -/
structure CustomPayloadData where
  ParentHash : Option Hash := none
  FeeRecipient : Option Address := none
  StateRoot : Option Hash := none
  ReceiptsRoot : Option Hash := none
  LogsBloom : Option Bytes := none
  PrevRandao : Option Hash := none
  Number : Option Nat := none
  GasLimit : Option Nat := none
  GasUsed : Option Nat := none
  Timestamp : Option Nat := none
  ExtraData : Option Bytes := none
  BaseFeePerGas : Option Int := none
  BlockHash : Option Hash := none
  Transactions : Option (List Bytes) := none
deriving DecidableEq

/-- ExecutableDataV1, the execution payload structure consumed and produced by
customizePayload.  Its declaration lives in another file of the engine
simulator (not among the sampled sources); every field and its type is fixed
by the uses in customizePayload. -/
structure ExecutableDataV1 where
  ParentHash : Hash
  FeeRecipient : Address
  StateRoot : Hash
  ReceiptsRoot : Hash
  LogsBloom : Bytes
  PrevRandao : Hash
  Number : Nat
  GasLimit : Nat
  GasUsed : Nat
  Timestamp : Nat
  ExtraData : Bytes
  BaseFeePerGas : Int
  BlockHash : Hash
  Transactions : List Bytes
deriving DecidableEq

/-- Error outcomes of payload mutation: decodeErr models the RLP decoding
error returned by types.Transaction.UnmarshalBinary inside calcTxsHash;
bloomTooBig models the panic of types.BytesToBloom (Bloom.SetBytes) on input
longer than 256 bytes. -/
inductive MutErr where
  | decodeErr
  | bloomTooBig
deriving DecidableEq

/-- go-ethereum types.BytesToBloom / Bloom.SetBytes: left-pad the bytes with
zeros into a 256-byte bloom; inputs longer than 256 bytes make SetBytes panic
(modelled as none). -/
def bytesToBloom (b : Bytes) : Option Bytes :=
  if b.length ≤ 256 then some (List.replicate (256 - b.length) 0 ++ b) else none

/-- A decoded transaction as far as calcTxsHash observes it (only its identity
feeds the transactions-root accumulator). -/
structure DecodedTx where
  raw : Bytes
deriving DecidableEq

/-- Stand-in for go-ethereum types.Transaction.UnmarshalBinary: decoding
succeeds iff the bytes have the shape of a legacy RLP list (first byte at
least 0xc0) or a typed-transaction envelope (type byte at most 0x7f followed
by a nonempty body); empty or otherwise malformed input fails.  The claims
rely only on decode success/failure propagation and determinism. -/
def decodeTx (bs : Bytes) : Option DecodedTx :=
  match bs with
  | [] => none
  | b :: rest => if 0xc0 ≤ b ∨ (b ≤ 0x7f ∧ rest ≠ []) then some ⟨bs⟩ else none

/-- Decode every element of the transaction byte-sequence in order, failing at
the first undecodable element (the loop of calcTxsHash, helper.go lines
171-179). -/
def decodeAll : List Bytes → Except MutErr (List DecodedTx)
  | [] => Except.ok []
  | b :: rest =>
    match decodeTx b with
    | none => Except.error MutErr.decodeErr
    | some t => (decodeAll rest).map (fun l => t :: l)

/-- Stand-in for types.DeriveSha over a StackTrie: the order-preserving
transactions-root accumulator. -/
def deriveSha (txs : List DecodedTx) : Hash :=
  encList (txs.map (fun t => encList t.raw))

/-- calcTxsHash from helper.go: decode every opaque transaction byte-string;
on success derive the transactions root, otherwise return the decode error. -/
def calcTxsHash (txsBytes : List Bytes) : Except MutErr Hash :=
  (decodeAll txsBytes).map deriveSha

/-- go-ethereum types.Header as assembled by customizePayload.  The nonce
field (types.BlockNonce) is an 8-byte array, always BlockNonce zero here. -/
structure Header where
  parentHash : Hash
  uncleHash : Hash
  coinbase : Address
  root : Hash
  txHash : Hash
  receiptHash : Hash
  bloom : Bytes
  difficulty : Int
  number : Int
  gasLimit : Nat
  gasUsed : Nat
  time : Nat
  extra : Bytes
  mixDigest : Hash
  nonce : Nat
  baseFee : Int
deriving DecidableEq

/-- go-ethereum types.EmptyUncleHash (keccak of the RLP empty list). -/
def EmptyUncleHash : Hash :=
  0x1dcc4de8dec75d7aab85b567b6ccd41ad312451b948a7413f0a142fd40d49347

/-- Stand-in for types.Header.Hash (keccak256 of the RLP-encoded header): a
deterministic function of every header field. -/
def headerHash (h : Header) : Hash :=
  encList ([h.parentHash, h.uncleHash, h.coinbase, h.root, h.txHash,
    h.receiptHash] ++ h.bloom ++ [encInt h.difficulty, encInt h.number,
    h.gasLimit, h.gasUsed, h.time] ++ h.extra ++ [h.mixDigest, h.nonce,
    encInt h.baseFee])

/-- The effective transaction byte-sequence of a mutation call: the override
when present, else the base payload's sequence (helper.go lines 186-189). -/
def effTxs (basePayload : ExecutableDataV1) (customData : CustomPayloadData) :
    List Bytes :=
  match customData.Transactions with
  | some t => t
  | none => basePayload.Transactions

/-- The effective block number of a mutation call (override or base), before
the int64 conversion. -/
def effNumber (basePayload : ExecutableDataV1)
    (customData : CustomPayloadData) : Nat :=
  customData.Number.getD basePayload.Number

/-- The bloom written into the assembled header: the base payload's converted
bloom unless a LogsBloom override is present, in which case the override is
itself converted through BytesToBloom (helper.go lines 203 and 228-230). -/
def effBloom (baseBloom : Bytes) : Option Bytes → Except MutErr Bytes
  | none => Except.ok baseBloom
  | some lb =>
    match bytesToBloom lb with
    | none => Except.error MutErr.bloomTooBig
    | some b => Except.ok b

/-- The fully-assembled header of customizePayload: base payload fields
overwritten by the present overrides, with the fixed fields UncleHash =
EmptyUncleHash, Difficulty = 0, Nonce = BlockNonce zero, the recomputed
transactions root, and the block number passed through Go's
big.NewInt(int64(n)) conversion (helper.go lines 196-251). -/
def assembledHeader (basePayload : ExecutableDataV1)
    (customData : CustomPayloadData) (txsHash : Hash) (bloom : Bytes) :
    Header :=
  { parentHash := customData.ParentHash.getD basePayload.ParentHash
    uncleHash := EmptyUncleHash
    coinbase := customData.FeeRecipient.getD basePayload.FeeRecipient
    root := customData.StateRoot.getD basePayload.StateRoot
    txHash := txsHash
    receiptHash := customData.ReceiptsRoot.getD basePayload.ReceiptsRoot
    bloom := bloom
    difficulty := 0
    number := toInt64 (effNumber basePayload customData)
    gasLimit := customData.GasLimit.getD basePayload.GasLimit
    gasUsed := customData.GasUsed.getD basePayload.GasUsed
    time := customData.Timestamp.getD basePayload.Timestamp
    extra := customData.ExtraData.getD basePayload.ExtraData
    mixDigest := customData.PrevRandao.getD basePayload.PrevRandao
    nonce := 0
    baseFee := customData.BaseFeePerGas.getD basePayload.BaseFeePerGas }

/-- The payload returned by customizePayload: every field read back from the
assembled header, the block number through big.Int.Uint64, the bloom through
Bloom slicing, and BlockHash computed last as the hash of the assembled header
(helper.go lines 254-269). -/
def builtPayload (basePayload : ExecutableDataV1)
    (customData : CustomPayloadData) (txsHash : Hash) (bloom : Bytes) :
    ExecutableDataV1 :=
  let hdr := assembledHeader basePayload customData txsHash bloom
  { ParentHash := hdr.parentHash
    FeeRecipient := hdr.coinbase
    StateRoot := hdr.root
    ReceiptsRoot := hdr.receiptHash
    LogsBloom := hdr.bloom
    PrevRandao := hdr.mixDigest
    Number := bigUint64 hdr.number
    GasLimit := hdr.gasLimit
    GasUsed := hdr.gasUsed
    Timestamp := hdr.time
    ExtraData := hdr.extra
    BaseFeePerGas := hdr.baseFee
    BlockHash := headerHash hdr
    Transactions := effTxs basePayload customData }

/-- customizePayload from helper.go: derive the transactions root of the
effective transaction sequence (failing on an undecodable transaction),
convert the base bloom (panicking on oversize input, before any override
bloom is converted), assemble the header with all overrides applied, and
return the payload with BlockHash computed last from the assembled header.
The declared BlockHash override is never read. -/
def customizePayload (basePayload : ExecutableDataV1)
    (customData : CustomPayloadData) : Except MutErr ExecutableDataV1 :=
  match calcTxsHash (effTxs basePayload customData) with
  | Except.error e => Except.error e
  | Except.ok txsHash =>
    match bytesToBloom basePayload.LogsBloom with
    | none => Except.error MutErr.bloomTooBig
    | some baseBloom =>
      match effBloom baseBloom customData.LogsBloom with
      | Except.error e => Except.error e
      | Except.ok bloom =>
        Except.ok (builtPayload basePayload customData txsHash bloom)

/-- Modelled from the spec: the independent recomputation of a payload's
content hash from every other field of that payload (spec section 8,
round-trip consistency), with the transactions root re-derived from the
payload's transaction sequence and the header reassembled exactly as
customizePayload assembles it.  This is the check definition the refinement
claim compares against the code's output. -/
def recomputePayloadHash (p : ExecutableDataV1) : Except MutErr Hash :=
  match calcTxsHash p.Transactions with
  | Except.error e => Except.error e
  | Except.ok txsHash =>
    match bytesToBloom p.LogsBloom with
    | none => Except.error MutErr.bloomTooBig
    | some bloom =>
      Except.ok (headerHash
        { parentHash := p.ParentHash
          uncleHash := EmptyUncleHash
          coinbase := p.FeeRecipient
          root := p.StateRoot
          txHash := txsHash
          receiptHash := p.ReceiptsRoot
          bloom := bloom
          difficulty := 0
          number := toInt64 p.Number
          gasLimit := p.GasLimit
          gasUsed := p.GasUsed
          time := p.Timestamp
          extra := p.ExtraData
          mixDigest := p.PrevRandao
          nonce := 0
          baseFee := p.BaseFeePerGas })

/-- A transaction carries a valid deterministic EIP-155 signature by the given
key over its own signed fields: the raw (V, R, S) triple equals the signer's
output on the transaction's body. -/
def validSignature (tx : Transaction) (pk : PrivKey) : Prop :=
  let sv := ecdsaSign (sigHash
    { nonce := tx.nonce, gasPrice := tx.gasPrice, gas := tx.gas, toAddr := tx.toAddr,
      value := tx.value, data := tx.data, v := 0, r := 0, s := 0 } chainID) pk
  tx.sigV = sv.V ∧ tx.sigR = sv.R ∧ tx.sigS = sv.S

/-- SlotAction variants from the marioevz/blobber slot_actions package as
instantiated by the registered blob-gossip scenarios (tests.go).  Go zero
values of omitted struct fields are false / 0. -/
inductive SlotAction where
  | broadcastBlobsBeforeBlock
  | blobGossipDelay (delayMilliseconds : Nat)
  | extraBlobs (broadcastBlockFirst broadcastExtraBlobFirst
      incorrectKZGCommitment incorrectSignature : Bool)
  | conflictingBlobs (conflictingBlobsCount : Nat)
  | swapBlobs (splitNetwork : Bool)
deriving DecidableEq

/-- Blobber configuration options from the marioevz/blobber config package as
used by P2PBlobsGossipTestSpec.GetTestnetConfig.  The slot action is optional
because a scenario without a deviation strategy leaves the Go interface nil. -/
inductive BlobberOption where
  | withSlotAction (a : Option SlotAction)
  | withSlotActionFrequency (frequency : Nat)
  | withAlwaysErrorValidatorResponse
  | withMaxDevP2PSessionReuses (n : Nat)
deriving DecidableEq

/-- The testnet configuration fields touched by
P2PBlobsGossipTestSpec.GetTestnetConfig.  The base configuration produced by
BaseTestSpec.GetTestnetConfig lives outside the sampled sources and is taken
as an input value. -/
structure TestnetConfig where
  enableBlobber : Bool := false
  blobberOptions : List BlobberOption := []
  disablePeerScoring : Bool := false
deriving DecidableEq

/-- P2PBlobsGossipTestSpec from the blob-gossip suite, with the BaseTestSpec
fields the registered scenarios set (Name, DenebGenesis,
GenesisExecutionWithdrawalCredentialsShares) flattened in; the free-text
Description fields do not bear on any claim and are omitted. -/
structure P2PBlobsGossipTestSpec where
  name : String
  denebGenesis : Bool := false
  genesisExecutionWithdrawalCredentialsShares : Nat := 0
  blobberSlotAction : Option SlotAction := none
  blobberActionCausesMissedSlot : Bool := false
  maxMissedSlots : Nat := 0
deriving DecidableEq

/-- MAX_MISSED_SLOTS constant of the blob-gossip suite. -/
def MAX_MISSED_SLOTS : Nat := 3

/-- WAIT_EPOCHS_AFTER_FORK constant of the blob-gossip suite. -/
def WAIT_EPOCHS_AFTER_FORK : Nat := 1

/-- P2PBlobsGossipTestSpec.GetMaxMissedSlots: the per-scenario override when
positive, else the suite default. -/
def GetMaxMissedSlots (ts : P2PBlobsGossipTestSpec) : Nat :=
  if ts.maxMissedSlots > 0 then ts.maxMissedSlots else MAX_MISSED_SLOTS

/-- P2PBlobsGossipTestSpec.GetTestnetConfig: enable the blobber, schedule the
scenario's slot action at frequency 2 when the action is declared to cause
missed slots (so the chain cannot stall on back-to-back missed slots) and at
frequency 1 otherwise, always answer validator requests with an error, always
reuse the same peer id, and disable peer scoring. -/
def GetTestnetConfig (ts : P2PBlobsGossipTestSpec) (base : TestnetConfig) :
    TestnetConfig :=
  let blobberActionFrequency : Nat :=
    if ts.blobberActionCausesMissedSlot then 2 else 1
  { base with
    enableBlobber := true
    blobberOptions := [
      BlobberOption.withSlotAction ts.blobberSlotAction,
      BlobberOption.withSlotActionFrequency blobberActionFrequency,
      BlobberOption.withAlwaysErrorValidatorResponse,
      BlobberOption.withMaxDevP2PSessionReuses 0]
    disablePeerScoring := true }

/-- The slot-action frequency configured in a testnet configuration: the
argument of the first withSlotActionFrequency option. -/
def configuredFrequency (c : TestnetConfig) : Option Nat :=
  c.blobberOptions.findSome? fun o =>
    match o with
    | BlobberOption.withSlotActionFrequency f => some f
    | _ => none

/-- Modelled from the spec: the Fault-Injection Controller executes the active
slot action on a round boundary exactly when round mod frequency = 0 (spec
section 4.3); the scheduling loop itself lives in the external blobber
library, outside the sampled sources. -/
def triggersAt (frequency round : Nat) : Bool := round % frequency == 0

/-- The scenario registry populated by the init function of tests.go: the ten
registered blob-gossip test specs, in registration order. -/
def Tests : List P2PBlobsGossipTestSpec := [
  { name := "test-blob-gossiping-sanity"
    denebGenesis := true
    genesisExecutionWithdrawalCredentialsShares := 1 },
  { name := "test-blob-gossiping-before-block"
    denebGenesis := true
    genesisExecutionWithdrawalCredentialsShares := 1
    blobberSlotAction := some SlotAction.broadcastBlobsBeforeBlock },
  { name := "test-blob-gossiping-delay"
    denebGenesis := true
    genesisExecutionWithdrawalCredentialsShares := 1
    blobberSlotAction := some (SlotAction.blobGossipDelay 500) },
  { name := "test-blob-gossiping-one-slot-delay"
    denebGenesis := true
    genesisExecutionWithdrawalCredentialsShares := 1
    blobberSlotAction := some (SlotAction.blobGossipDelay 6000)
    blobberActionCausesMissedSlot := true },
  { name := "test-blob-gossiping-extra-blob"
    denebGenesis := true
    genesisExecutionWithdrawalCredentialsShares := 1
    blobberSlotAction := some (SlotAction.extraBlobs true true false false)
    blobberActionCausesMissedSlot := true },
  { name := "test-blob-gossiping-extra-blob-with-incorrect-kzg-commitment"
    denebGenesis := true
    genesisExecutionWithdrawalCredentialsShares := 1
    blobberSlotAction := some (SlotAction.extraBlobs true true true false)
    blobberActionCausesMissedSlot := true },
  { name := "test-blob-gossiping-extra-blob-with-incorrect-signature"
    denebGenesis := true
    genesisExecutionWithdrawalCredentialsShares := 1
    blobberSlotAction := some (SlotAction.extraBlobs true true false true)
    blobberActionCausesMissedSlot := false },
  { name := "test-blob-gossiping-conflicting-blobs"
    denebGenesis := true
    genesisExecutionWithdrawalCredentialsShares := 1
    blobberSlotAction := some (SlotAction.conflictingBlobs 0)
    blobberActionCausesMissedSlot := false },
  { name := "test-blob-gossiping-max-conflicting-blobs"
    denebGenesis := true
    genesisExecutionWithdrawalCredentialsShares := 1
    blobberSlotAction := some (SlotAction.conflictingBlobs 6)
    blobberActionCausesMissedSlot := false },
  { name := "test-gossiping-incorrectly-indexed-blobs"
    denebGenesis := true
    genesisExecutionWithdrawalCredentialsShares := 1
    blobberSlotAction := some (SlotAction.swapBlobs false)
    blobberActionCausesMissedSlot := true }]

/-- A concrete baseline transaction for witness instances: a dynamic-fee
transaction (type 2) with a nonempty access list and an arbitrary signature. -/
def txSample : Transaction :=
  { txType := 2, nonce := 4, gasPrice := 30, gas := 21000, toAddr := some 9,
    value := 100, data := [1, 2], accessList := [(9, [3])],
    sigV := 1, sigR := 2, sigS := 3 }

/-- The empty transaction override set. -/
def noTxOverrides : CustomTransactionData := {}

/-- The empty payload override set. -/
def noOverrides : CustomPayloadData := {}

/-- A concrete all-zero baseline payload with a well-formed 256-byte logs
bloom and no transactions. -/
def bpZero : ExecutableDataV1 :=
  { ParentHash := 0, FeeRecipient := 0, StateRoot := 0, ReceiptsRoot := 0,
    LogsBloom := List.replicate 256 0, PrevRandao := 0, Number := 0,
    GasLimit := 0, GasUsed := 0, Timestamp := 0, ExtraData := [],
    BaseFeePerGas := 0, BlockHash := 0, Transactions := [] }

/-- The header customizePayload assembles from bpZero with no overrides. -/
def zeroHeader : Header :=
  { parentHash := 0, uncleHash := EmptyUncleHash, coinbase := 0, root := 0,
    txHash := deriveSha [], receiptHash := 0,
    bloom := List.replicate 256 0, difficulty := 0, number := 0,
    gasLimit := 0, gasUsed := 0, time := 0, extra := [], mixDigest := 0,
    nonce := 0, baseFee := 0 }

/-- The payload customizePayload produces from bpZero with no overrides. -/
def pZero : ExecutableDataV1 :=
  { ParentHash := 0, FeeRecipient := 0, StateRoot := 0, ReceiptsRoot := 0,
    LogsBloom := List.replicate 256 0, PrevRandao := 0, Number := 0,
    GasLimit := 0, GasUsed := 0, Timestamp := 0, ExtraData := [],
    BaseFeePerGas := 0, BlockHash := headerHash zeroHeader,
    Transactions := [] }

/-- A baseline payload whose logs bloom is empty rather than 256 bytes. -/
def bpNoBloom : ExecutableDataV1 := { bpZero with LogsBloom := [] }

/-- A baseline payload whose block number does not fit in a non-negative
int64. -/
def bpBigNum : ExecutableDataV1 := { bpZero with Number := 2 ^ 63 + 1 }

/-- The header customizePayload assembles from bpBigNum with no overrides:
Go's big.NewInt(int64(Number)) wraps the number to a negative value. -/
def bigNumHeader : Header := { zeroHeader with number := toInt64 (2 ^ 63 + 1) }

/-- The payload customizePayload produces from bpBigNum with no overrides:
reading the number back through big.Int.Uint64 yields 2 ^ 63 - 1, not the
baseline's 2 ^ 63 + 1. -/
def pBigNum : ExecutableDataV1 :=
  { pZero with Number := 2 ^ 63 - 1, BlockHash := headerHash bigNumHeader }

/-- A baseline payload holding one undecodable transaction byte-string (first
byte 0x85: neither an RLP list nor a typed envelope). -/
def bpBadTx : ExecutableDataV1 := { bpZero with Transactions := [[0x85]] }

/-- A concrete test spec whose slot action is declared to cause missed
slots. -/
def tsMissed : P2PBlobsGossipTestSpec :=
  { name := "witness-spec"
    blobberSlotAction := some (SlotAction.blobGossipDelay 6000)
    blobberActionCausesMissedSlot := true }

/-- A transaction override set touching only the nonce, used by witness
instances. -/
def otxNonce : CustomTransactionData := { Nonce := some 5 }

set_option maxRecDepth 100000

theorem bytesToBloom_of_length (b : Bytes) (h : b.length = 256) :
    bytesToBloom b = some b := by
  simp [bytesToBloom, h]

theorem bytesToBloom_length (b c : Bytes) (h : bytesToBloom b = some c) :
    c.length = 256 := by
  unfold bytesToBloom at h
  split at h
  · rename_i hle
    injection h with h
    subst h
    simp
    omega
  · cases h

theorem effBloom_length (bb : Bytes) (o : Option Bytes) (bl : Bytes)
    (hbb : bb.length = 256) (h : effBloom bb o = Except.ok bl) :
    bl.length = 256 := by
  cases o with
  | none =>
    simp only [effBloom] at h
    cases h
    exact hbb
  | some lb =>
    simp only [effBloom] at h
    split at h
    · cases h
    · rename_i c hc
      cases h
      exact bytesToBloom_length _ _ hc

theorem toInt64_roundtrip (n : Nat) (h : n < 2 ^ 63) :
    bigUint64 (toInt64 n) = n := by
  have h64 : n % 2 ^ 64 = n := Nat.mod_eq_of_lt (by omega)
  unfold toInt64 bigUint64
  rw [h64, if_pos h]
  simp [Int.natAbs_ofNat]
  omega

theorem decodeAll_error_of_bad (l : List Bytes) (t : Bytes) (ht : t ∈ l)
    (hd : decodeTx t = none) :
    decodeAll l = Except.error MutErr.decodeErr := by
  induction l with
  | nil => cases ht
  | cons b rest ih =>
    cases ht with
    | head => simp [decodeAll, hd]
    | tail _ hmem =>
      unfold decodeAll
      cases hdb : decodeTx b with
      | none => rfl
      | some tb => rw [ih hmem]; rfl

theorem calcTxsHash_error_of_bad (l : List Bytes) (t : Bytes) (ht : t ∈ l)
    (hd : decodeTx t = none) :
    calcTxsHash l = Except.error MutErr.decodeErr := by
  unfold calcTxsHash
  rw [decodeAll_error_of_bad l t ht hd]
  rfl

theorem customizePayload_ok_inv (bp : ExecutableDataV1)
    (op : CustomPayloadData) (p : ExecutableDataV1)
    (hok : customizePayload bp op = Except.ok p) :
    ∃ txsHash baseBloom bloom,
      calcTxsHash (effTxs bp op) = Except.ok txsHash ∧
      bytesToBloom bp.LogsBloom = some baseBloom ∧
      effBloom baseBloom op.LogsBloom = Except.ok bloom ∧
      p = builtPayload bp op txsHash bloom := by
  unfold customizePayload at hok
  split at hok
  · cases hok
  · rename_i txsHash heq
    split at hok
    · cases hok
    · rename_i baseBloom hbb
      split at hok
      · cases hok
      · rename_i bloom hbl
        exact ⟨txsHash, baseBloom, bloom, heq, hbb, hbl,
          (Except.ok.inj hok).symm⟩

/-- C1 counterexample: with an explicit BlockHash override present,
customizePayload does not reject the call — it produces a payload (the same
payload the call without the override produces).  No configuration-error path
exists in customizePayload at all. -/
theorem customizePayload_blockhash_override_not_rejected :
    customizePayload bpZero { noOverrides with BlockHash := some 5 } =
      Except.ok pZero := by decide

/-- C1 (amended): an explicit BlockHash override is silently ignored rather
than rejected: customizePayload never reads the BlockHash override field, so
the result is identical to the result of the same call without the override,
and the output BlockHash is always the recomputed header hash. -/
theorem customizePayload_blockhash_override_ignored (bp : ExecutableDataV1)
    (op : CustomPayloadData) (ob : Option Hash) :
    customizePayload bp { op with BlockHash := ob } =
      customizePayload bp { op with BlockHash := none } := by
  cases op
  rfl

/-- C2 counterexample: for a baseline payload whose logs bloom is not 256
bytes long (here empty), the mutation with an empty override set changes the
LogsBloom field — the Go code normalizes it through types.BytesToBloom — so
the field is not copied unchanged from the baseline. -/
theorem mutation_frame_logsbloom_cex :
    ¬ ∀ p, customizePayload bpNoBloom noOverrides = Except.ok p →
      p.LogsBloom = bpNoBloom.LogsBloom := by
  intro h
  have h2 := h pZero (by decide)
  exact absurd h2 (by decide)

/-- C2 (amended): provided the baseline payload's logs bloom is exactly 256
bytes and its block number is below 2 ^ 63, every field of the mutation
result whose override is absent equals the corresponding baseline field — for
customizeTransaction each of the six data fields, for customizePayload each
of the twelve header fields and the transaction sequence; in particular,
overriding only the transaction sequence leaves every unrelated header field
unchanged.  (Derived fields — the transaction signature and the payload
BlockHash — are recomputed, not copied, per the other claims.) -/
theorem mutation_frame_preservation (btx : Transaction) (pk : PrivKey)
    (otx : CustomTransactionData) (bp : ExecutableDataV1)
    (op : CustomPayloadData) (p : ExecutableDataV1)
    (hbl : bp.LogsBloom.length = 256) (hnum : bp.Number < 2 ^ 63)
    (hok : customizePayload bp op = Except.ok p) :
    ((otx.Nonce = none → (customizeTransaction btx pk otx).nonce = btx.nonce) ∧
     (otx.GasPrice = none →
       (customizeTransaction btx pk otx).gasPrice = btx.gasPrice) ∧
     (otx.Gas = none → (customizeTransaction btx pk otx).gas = btx.gas) ∧
     (otx.To = none → (customizeTransaction btx pk otx).toAddr = btx.toAddr) ∧
     (otx.Value = none → (customizeTransaction btx pk otx).value = btx.value) ∧
     (otx.Data = none → (customizeTransaction btx pk otx).data = btx.data)) ∧
    ((op.ParentHash = none → p.ParentHash = bp.ParentHash) ∧
     (op.FeeRecipient = none → p.FeeRecipient = bp.FeeRecipient) ∧
     (op.StateRoot = none → p.StateRoot = bp.StateRoot) ∧
     (op.ReceiptsRoot = none → p.ReceiptsRoot = bp.ReceiptsRoot) ∧
     (op.LogsBloom = none → p.LogsBloom = bp.LogsBloom) ∧
     (op.PrevRandao = none → p.PrevRandao = bp.PrevRandao) ∧
     (op.Number = none → p.Number = bp.Number) ∧
     (op.GasLimit = none → p.GasLimit = bp.GasLimit) ∧
     (op.GasUsed = none → p.GasUsed = bp.GasUsed) ∧
     (op.Timestamp = none → p.Timestamp = bp.Timestamp) ∧
     (op.ExtraData = none → p.ExtraData = bp.ExtraData) ∧
     (op.BaseFeePerGas = none → p.BaseFeePerGas = bp.BaseFeePerGas) ∧
     (op.Transactions = none → p.Transactions = bp.Transactions)) := by
  constructor
  · cases hs : otx.Signature <;>
      refine ⟨fun h => ?_, fun h => ?_, fun h => ?_, fun h => ?_,
        fun h => ?_, fun h => ?_⟩ <;>
      simp [customizeTransaction, overriddenLegacyBase, SignTx, NewTx, hs, h]
  · obtain ⟨txsHash, baseBloom, bloom, heq, hbb, hblo, hp⟩ :=
      customizePayload_ok_inv bp op p hok
    subst hp
    have hbbEq : baseBloom = bp.LogsBloom := by
      rw [bytesToBloom_of_length _ hbl] at hbb
      exact (Option.some.inj hbb).symm
    refine ⟨fun h => ?_, fun h => ?_, fun h => ?_, fun h => ?_, fun h => ?_,
      fun h => ?_, fun h => ?_, fun h => ?_, fun h => ?_, fun h => ?_,
      fun h => ?_, fun h => ?_, fun h => ?_⟩
    · simp [builtPayload, assembledHeader, h]
    · simp [builtPayload, assembledHeader, h]
    · simp [builtPayload, assembledHeader, h]
    · simp [builtPayload, assembledHeader, h]
    · rw [h] at hblo
      simp only [effBloom] at hblo
      simp [builtPayload, assembledHeader, ← Except.ok.inj hblo, hbbEq]
    · simp [builtPayload, assembledHeader, h]
    · simp [builtPayload, assembledHeader, effNumber, h,
        toInt64_roundtrip _ hnum]
    · simp [builtPayload, assembledHeader, h]
    · simp [builtPayload, assembledHeader, h]
    · simp [builtPayload, assembledHeader, h]
    · simp [builtPayload, assembledHeader, h]
    · simp [builtPayload, assembledHeader, h]
    · simp [builtPayload, effTxs, h]

/-- C2 witness: the amended frame theorem applied at a concrete baseline and
empty override set. -/
theorem mutation_frame_preservation_witness :
    pZero.ParentHash = bpZero.ParentHash :=
  (mutation_frame_preservation txSample 11 noTxOverrides bpZero noOverrides
    pZero (by decide) (by decide) (by decide)).2.1 rfl

/-- C3 counterexample: for a baseline block number of 2 ^ 63 + 1 (with an
empty override set), the produced payload's BlockHash does not equal the hash
independently recomputed from the payload's own fields: Go's
big.NewInt(int64(Number)) wraps the number to a negative value inside the
hashed header, while the payload reads it back through big.Int.Uint64 as
2 ^ 63 - 1. -/
theorem blockhash_roundtrip_cex :
    customizePayload bpBigNum noOverrides = Except.ok pBigNum ∧
    recomputePayloadHash pBigNum ≠ Except.ok pBigNum.BlockHash :=
  ⟨by decide, by decide⟩

/-- C3 (amended): for every baseline payload and override set not touching
the content hash, provided the effective block number (override or baseline)
is below 2 ^ 63, the BlockHash of the mutation result equals the header hash
independently recomputed from every other field of the result, with the
transactions root re-derived from the result's transaction sequence; the
content hash is computed last, after all overrides are applied. -/
theorem blockhash_roundtrip (bp : ExecutableDataV1)
    (op : CustomPayloadData) (p : ExecutableDataV1)
    (_hbh : op.BlockHash = none) (hn : effNumber bp op < 2 ^ 63)
    (hok : customizePayload bp op = Except.ok p) :
    recomputePayloadHash p = Except.ok p.BlockHash := by
  obtain ⟨txsHash, baseBloom, bloom, heq, hbb, hbl, hp⟩ :=
    customizePayload_ok_inv bp op p hok
  subst hp
  have hbbl : baseBloom.length = 256 := bytesToBloom_length _ _ hbb
  have hbll : bloom.length = 256 :=
    effBloom_length baseBloom op.LogsBloom bloom hbbl hbl
  unfold recomputePayloadHash
  simp only [builtPayload, assembledHeader]
  rw [heq, bytesToBloom_of_length _ hbll, toInt64_roundtrip _ hn]

/-- C3 witness: the round-trip theorem applied at a concrete baseline and
empty override set. -/
theorem blockhash_roundtrip_witness :
    recomputePayloadHash pZero = Except.ok pZero.BlockHash :=
  blockhash_roundtrip bpZero noOverrides pZero rfl (by decide) (by decide)

/-- C4: mutation is deterministic — two calls of customizeTransaction (and of
customizePayload) on identical inputs return identical outputs, including the
re-derived signature; in this embedding both operations are pure functions of
their inputs (the only nondeterminism candidate, ECDSA signing, is the
deterministic RFC 6979 signer the spec's Signer interface requires). -/
theorem mutation_deterministic (b1 b2 : Transaction) (pk1 pk2 : PrivKey)
    (o1 o2 : CustomTransactionData) (bp1 bp2 : ExecutableDataV1)
    (op1 op2 : CustomPayloadData)
    (htx : b1 = b2) (hpk : pk1 = pk2) (ho : o1 = o2) (hbp : bp1 = bp2)
    (hop : op1 = op2) :
    customizeTransaction b1 pk1 o1 = customizeTransaction b2 pk2 o2 ∧
    customizePayload bp1 op1 = customizePayload bp2 op2 := by
  subst htx hpk ho hbp hop
  exact ⟨rfl, rfl⟩

/-- C4 witness: determinism at a concrete transaction, key, and payload. -/
theorem mutation_deterministic_witness :
    customizeTransaction txSample 11 noTxOverrides =
      customizeTransaction txSample 11 noTxOverrides ∧
    customizePayload bpZero noOverrides = customizePayload bpZero noOverrides :=
  mutation_deterministic txSample txSample 11 11 noTxOverrides noTxOverrides
    bpZero bpZero noOverrides noOverrides rfl rfl rfl rfl rfl

/-- C5: when the override set touches a signed field and no explicit
Signature override is supplied, customizeTransaction re-signs: the result is
exactly the assembled post-override body signed with the original signer's
private key, it carries a valid deterministic signature over the
post-override fields, and the baseline signature is never consulted (changing
it does not change the result). -/
theorem resign_on_signed_field_override (btx : Transaction) (pk : PrivKey)
    (otx : CustomTransactionData)
    (_htouch : otx.Nonce ≠ none ∨ otx.GasPrice ≠ none ∨ otx.Gas ≠ none ∨
      otx.To ≠ none ∨ otx.Value ≠ none ∨ otx.Data ≠ none)
    (hsig : otx.Signature = none) :
    customizeTransaction btx pk otx =
      SignTx (overriddenLegacyBase btx otx) chainID pk ∧
    validSignature (customizeTransaction btx pk otx) pk ∧
    (∀ v r s, customizeTransaction
        { btx with sigV := v, sigR := r, sigS := s } pk otx =
      customizeTransaction btx pk otx) := by
  refine ⟨?_, ?_, ?_⟩
  · simp [customizeTransaction, hsig]
  · simp [customizeTransaction, hsig, validSignature, SignTx, NewTx, sigHash]
  · intro v r s
    simp [customizeTransaction, overriddenLegacyBase, hsig]

/-- C5 witness: re-signing at a concrete transaction whose nonce is
overridden with no signature override. -/
theorem resign_on_signed_field_override_witness :
    customizeTransaction txSample 11 otxNonce =
      SignTx (overriddenLegacyBase txSample otxNonce) chainID 11 :=
  (resign_on_signed_field_override txSample 11 otxNonce
    (Or.inl (by decide)) rfl).1

/-- C6: if any element of the effective transaction byte-sequence (override
when present, baseline otherwise) cannot be decoded, customizePayload fails
with the decode error and returns no payload. -/
theorem undecodable_tx_rejected (bp : ExecutableDataV1)
    (op : CustomPayloadData) (t : Bytes) (ht : t ∈ effTxs bp op)
    (hd : decodeTx t = none) :
    customizePayload bp op = Except.error MutErr.decodeErr := by
  unfold customizePayload
  rw [calcTxsHash_error_of_bad _ t ht hd]

/-- C6 witness: a concrete baseline payload holding one undecodable
transaction byte-string is rejected with the decode error. -/
theorem undecodable_tx_rejected_witness :
    customizePayload bpBadTx noOverrides = Except.error MutErr.decodeErr :=
  undecodable_tx_rejected bpBadTx noOverrides [0x85] (by decide) (by decide)

/-- C7: GetTestnetConfig schedules the blobber slot action at frequency 2
when the scenario declares the action to cause missed slots and at frequency
1 otherwise; at frequency 2 the controller (which fires when round mod
frequency is 0) never triggers on two consecutive rounds. -/
theorem blobber_action_frequency (ts : P2PBlobsGossipTestSpec)
    (base : TestnetConfig) :
    configuredFrequency (GetTestnetConfig ts base) =
      some (if ts.blobberActionCausesMissedSlot then 2 else 1) ∧
    (ts.blobberActionCausesMissedSlot = true →
      ∀ r : Nat, ¬(triggersAt 2 r = true ∧ triggersAt 2 (r + 1) = true)) := by
  constructor
  · rfl
  · intro _ r hr
    obtain ⟨h1, h2⟩ := hr
    simp [triggersAt] at h1 h2
    omega

/-- C7 witness: the frequency theorem at a concrete spec declaring missed
slots and at round 4. -/
theorem blobber_action_frequency_witness :
    configuredFrequency (GetTestnetConfig tsMissed {}) = some 2 ∧
    ¬(triggersAt 2 4 = true ∧ triggersAt 2 5 = true) :=
  ⟨(blobber_action_frequency tsMissed {}).1,
   (blobber_action_frequency tsMissed {}).2 rfl 4⟩

/-- C8: exactly one registered scenario's strategy is the extra blob with an
incorrect KZG commitment (correct block root and proposer signature,
broadcast before the legitimate blobs), and that scenario declares an
expected missed slot (BlobberActionCausesMissedSlot = true). -/
theorem extra_blob_incorrect_kzg_missed_slot :
    (Tests.filter (fun t => decide (t.blobberSlotAction =
        some (SlotAction.extraBlobs true true true false)))).map
      (fun t => t.blobberActionCausesMissedSlot) = [true] := by rfl

/-- C9: every registered scenario whose strategy broadcasts conflicting but
independently valid blobs (the ConflictingBlobs slot action) declares no
expected missed slot (BlobberActionCausesMissedSlot = false). -/
theorem conflicting_blobs_no_missed_slot :
    (Tests.filter (fun t =>
      match t.blobberSlotAction with
      | some (SlotAction.conflictingBlobs _) => true
      | _ => false)).map
      (fun t => t.blobberActionCausesMissedSlot) = [false, false] := by rfl

/-- C10: customizeTransaction always builds its output from a LegacyTx base
regardless of the baseline's transaction type — the output has type 0 and
carries no access list — and with the Signature override absent it re-signs
even when no other field was overridden. -/
theorem legacy_tx_base_construction (btx : Transaction) (pk : PrivKey)
    (otx : CustomTransactionData) :
    (customizeTransaction btx pk otx).txType = 0 ∧
    (customizeTransaction btx pk otx).accessList = [] ∧
    (otx.Signature = none →
      customizeTransaction btx pk otx =
        SignTx (overriddenLegacyBase btx otx) chainID pk) := by
  refine ⟨?_, ?_, fun h => ?_⟩
  · cases hs : otx.Signature <;> simp [customizeTransaction, SignTx, NewTx, hs]
  · cases hs : otx.Signature <;> simp [customizeTransaction, SignTx, NewTx, hs]
  · simp [customizeTransaction, h]

/-- C10 witness: a dynamic-fee baseline with a nonempty access list and an
entirely empty override set yields a legacy-typed output with no access list,
freshly re-signed. -/
theorem legacy_tx_base_construction_witness :
    (customizeTransaction txSample 11 noTxOverrides).txType = 0 ∧
    (customizeTransaction txSample 11 noTxOverrides).accessList = [] ∧
    customizeTransaction txSample 11 noTxOverrides =
      SignTx (overriddenLegacyBase txSample noTxOverrides) chainID 11 :=
  ⟨(legacy_tx_base_construction txSample 11 noTxOverrides).1,
   (legacy_tx_base_construction txSample 11 noTxOverrides).2.1,
   (legacy_tx_base_construction txSample 11 noTxOverrides).2.2 rfl⟩
